import Mathlib

/-!
Shallow embedding of `quickstart.go` (package main) from
howdy39/study-gas-execution-api.

The program is sequential glue around a local credential cache:
`getClient` resolves a cache path, tries to read a cached OAuth token
from it, and on failure drives an interactive authorization flow
(`getTokenFromWeb`) and persists the result (`saveToken`).  `main`
then performs one remote Apps Script call and prints the result.

The effectful Go code is embedded as pure state-passing over a `World`
record that holds the file system, console input/output, and oracles
for the two external collaborators (the OAuth token-exchange endpoint
and the Apps Script RPC endpoint).  `log.Fatalf` is modelled by the
`Except.error` branch of `Except (String × World) α`, carrying the
fatal message and the world at the time of termination; a normal
return is `Except.ok`.
-/

/-- JSON values, for modelling `encoding/json` on the cache file. -/
inductive Json : Type where
  | null : Json
  | bool (b : Bool) : Json
  | num (n : Int) : Json
  | str (s : String) : Json
  | arr (elems : List Json) : Json
  | obj (fields : List (String × Json)) : Json

/-- Model of `golang.org/x/oauth2.Token`: access token, token type,
refresh token and expiry.  The expiry timestamp (`time.Time` in Go) is
modelled as an integer. -/
structure Token where
  accessToken : String
  tokenType : String
  refreshToken : String
  expiry : Int
deriving DecidableEq, Repr

/-- The zero value of `oauth2.Token`, produced by `&oauth2.Token{}`. -/
def zeroToken : Token := ⟨"", "", "", 0⟩

/-- Model of `json.Marshal` on `oauth2.Token`: the struct tags are
`access_token`, `token_type,omitempty`, `refresh_token,omitempty`,
`expiry`.  Empty string fields tagged `omitempty` are omitted. -/
def encodeToken (t : Token) : Json :=
  Json.obj ([("access_token", Json.str t.accessToken)]
    ++ (if t.tokenType = "" then [] else [("token_type", Json.str t.tokenType)])
    ++ (if t.refreshToken = "" then [] else [("refresh_token", Json.str t.refreshToken)])
    ++ [("expiry", Json.num t.expiry)])

/-- One step of `json.Decode` into an `oauth2.Token`: apply a single
object field to the token decoded so far.  Known keys must carry a
value of the right type; unknown keys are ignored (as `encoding/json`
does); a later duplicate key overwrites an earlier one. -/
def applyField (t : Token) : String × Json → Except Unit Token
  | ("access_token", Json.str s) => .ok { t with accessToken := s }
  | ("access_token", _) => .error ()
  | ("token_type", Json.str s) => .ok { t with tokenType := s }
  | ("token_type", _) => .error ()
  | ("refresh_token", Json.str s) => .ok { t with refreshToken := s }
  | ("refresh_token", _) => .error ()
  | ("expiry", Json.num n) => .ok { t with expiry := n }
  | ("expiry", _) => .error ()
  | (_, _) => .ok t

/-- Fold `applyField` over the fields of a JSON object, in order. -/
def applyFields (t : Token) : List (String × Json) → Except Unit Token
  | [] => .ok t
  | f :: fs =>
    match applyField t f with
    | .error e => .error e
    | .ok t2 => applyFields t2 fs

/-- Model of `json.NewDecoder(f).Decode(t)` with `t := &oauth2.Token{}`:
a JSON object sets the fields it mentions and leaves the rest at their
zero values; JSON `null` leaves the target untouched (zero token); any
other JSON kind is a type error. -/
def decodeJsonToken : Json → Except Unit Token
  | Json.null => .ok zeroToken
  | Json.obj fields => applyFields zeroToken fields
  | _ => .error ()

/-- Contents of a file: either a well-formed JSON document or raw
bytes that are not valid JSON (`raw ""` is an empty/truncated file). -/
inductive FileContent : Type where
  | json (j : Json) : FileContent
  | raw (bytes : String) : FileContent

/-- Decoding a file's contents as a token: raw, non-JSON bytes (and an
empty file) make the decoder fail. -/
def decodeFile : FileContent → Except Unit Token
  | FileContent.json j => decodeJsonToken j
  | FileContent.raw _ => .error ()

/-- A file on disk: its contents and its permission bits. -/
structure FileData where
  content : FileContent
  perm : Nat

/-- The file system: files and directories by absolute path, each
directory carrying its permission bits. -/
structure FS where
  files : String → Option FileData
  dirs : String → Option Nat

/-- Model of `os.MkdirAll(dir, perm)`: creates the directory with the
given permissions if absent; an existing directory is left untouched
(its permissions are not changed).  The Go code ignores its error. -/
def mkdirAll (dir : String) (perm : Nat) (fs : FS) : FS :=
  match fs.dirs dir with
  | some _ => fs
  | none => { fs with dirs := fun p => if p = dir then some perm else fs.dirs p }

/-- Model of `os.OpenFile(file, O_RDWR|O_CREATE|O_TRUNC, perm)` when the
open succeeds: an existing file is truncated to empty but keeps its old
permission bits (the `perm` argument only applies on creation); an
absent file is created empty with `perm`. -/
def openFileCreateTrunc (fs : FS) (file : String) (perm : Nat) : FS :=
  match fs.files file with
  | some fd =>
    { fs with files := fun p => if p = file then some ⟨FileContent.raw "", fd.perm⟩ else fs.files p }
  | none =>
    { fs with files := fun p => if p = file then some ⟨FileContent.raw "", perm⟩ else fs.files p }

/-- Overwrite the contents of an existing file, keeping its permissions. -/
def writeFile (fs : FS) (file : String) (c : FileContent) : FS :=
  { fs with files := fun p =>
      if p = file then (fs.files p).map (fun fd => ⟨c, fd.perm⟩) else fs.files p }

/-- Model of `oauth2.Config` as produced by `google.ConfigFromJSON`
with the single requested scope. -/
structure Config where
  clientID : String
  clientSecret : String
  scope : String
  authURL : String
  tokenURL : String
  redirectURL : String

/-- Model of `script.ExecutionRequest`. -/
structure ExecutionRequest where
  function : String
deriving DecidableEq, Repr

/-- Model of the Apps Script `Operation` response: `err` is the
rendering of `resp.Error` when the script itself failed (`none` when it
succeeded), `response` the raw JSON bytes of `resp.Response`. -/
structure RunResponse where
  err : Option String
  response : String
deriving DecidableEq, Repr

/-- The world state threaded through the program: the current user's
home directory, whether `user.Current()` fails, the file system,
pending console input tokens, console output so far, and oracles for
the external collaborators: `exchange` for `config.Exchange` at the
token endpoint, `openFails`/`encodeFails` for environmental failures of
`os.OpenFile` and of the JSON encoder's writes, and `rpc` for
`srv.Scripts.Run(...).Do()`. -/
structure World where
  home : String
  userErr : Option String
  fs : FS
  stdin : List String
  stdout : List String
  exchange : String → Except String Token
  openFails : Option String
  encodeFails : Bool
  rpc : String → ExecutionRequest → Token → Except String RunResponse

/-- True for the bytes `url.QueryEscape` leaves unescaped: ASCII
alphanumerics and `-`, `_`, `.`, `~`. -/
def unreservedChar (c : Char) : Bool :=
  (('a' ≤ c && c ≤ 'z') || ('A' ≤ c && c ≤ 'Z') || ('0' ≤ c && c ≤ '9')
    || c = '-' || c = '_' || c = '.' || c = '~')

/-- Upper-case hexadecimal digit, for percent-encoding. -/
def hexDigit (n : Nat) : Char :=
  if n < 10 then Char.ofNat (48 + n) else Char.ofNat (55 + n)

/-- Percent-escape a single character as `url.QueryEscape` does: keep
unreserved bytes, turn a space into `+`, percent-encode the rest. -/
def escapeCharL (c : Char) : List Char :=
  if unreservedChar c then [c]
  else if c = ' ' then ['+']
  else ['%', hexDigit (c.toNat / 16 % 16), hexDigit (c.toNat % 16)]

/-- Escape every character of a list in order. -/
def escapeL : List Char → List Char
  | [] => []
  | c :: cs => escapeCharL c ++ escapeL cs

/-- Model of `url.QueryEscape`. -/
def queryEscape (s : String) : String := ⟨escapeL s.data⟩

/-- Model of `config.AuthCodeURL("state-token", oauth2.AccessTypeOffline)`:
the authorization endpoint followed by the query parameters in the
sorted order `url.Values.Encode` produces (`access_type`, `client_id`,
`redirect_uri`, `response_type`, `scope`, `state`), values
query-escaped. -/
def authCodeURL (c : Config) (state : String) : String :=
  c.authURL ++ "?access_type=offline&client_id=" ++ queryEscape c.clientID
    ++ "&redirect_uri=" ++ queryEscape c.redirectURL
    ++ "&response_type=code&scope=" ++ queryEscape c.scope
    ++ "&state=" ++ queryEscape state

/-- The instructional line `getTokenFromWeb` prints before blocking. -/
def promptMsg (url : String) : String :=
  "Go to the following link in your browser then type the authorization code: \n"
    ++ url ++ "\n"

/-- Path of the cache directory: `filepath.Join(usr.HomeDir, ".credentials")`. -/
def tokenCacheDir (home : String) : String := home ++ "/.credentials"

/-- Path of the cache file:
`filepath.Join(tokenCacheDir, url.QueryEscape("script-go-quickstart.json"))`. -/
def cachePath (home : String) : String :=
  tokenCacheDir home ++ "/" ++ queryEscape "script-go-quickstart.json"

/-- Embedding of `tokenCacheFile()`: fails if `user.Current()` fails,
otherwise creates the cache directory with mode `0700` (the `MkdirAll`
error is ignored by the Go code) and returns the cache file path. -/
def tokenCacheFile (w : World) : Except String (String × World) :=
  match w.userErr with
  | some e => .error e
  | none =>
    .ok (cachePath w.home,
      { w with fs := mkdirAll (tokenCacheDir w.home) 0o700 w.fs })

/-- Embedding of `tokenFromFile(file)`: `os.Open` fails when the file
is absent, then the contents are decoded as a token. -/
def tokenFromFile (fs : FS) (file : String) : Except Unit Token :=
  match fs.files file with
  | none => .error ()
  | some fd => decodeFile fd.content

/-- Embedding of `getTokenFromWeb(config)`: print the authorization
URL, block on one token of console input (`fmt.Scan`; at end of input
the scan fails with EOF and the program dies), then exchange the code
at the token endpoint; any exchange failure is fatal. -/
def getTokenFromWeb (config : Config) (w : World) : Except (String × World) (Token × World) :=
  let url := authCodeURL config "state-token"
  let w1 := { w with stdout := w.stdout ++ [promptMsg url] }
  match w1.stdin with
  | [] => .error ("Unable to read authorization code EOF", w1)
  | code :: rest =>
    let w2 := { w1 with stdin := rest }
    match w2.exchange code with
    | .error e => .error ("Unable to retrieve token from web " ++ e, w2)
    | .ok tok => .ok (tok, w2)

/-- Embedding of `saveToken(file, token)`: print the destination path,
open the file with `O_RDWR|O_CREATE|O_TRUNC` and mode `0600` (failure
to open is fatal), then `json.NewEncoder(f).Encode(token)` — whose
error the Go code discards, so a failing encode leaves the file
truncated and the program continues. -/
def saveToken (file : String) (token : Token) (w : World) : Except (String × World) World :=
  let w1 := { w with stdout := w.stdout ++ ["Saving credential file to: " ++ file ++ "\n"] }
  match w1.openFails with
  | some e => .error ("Unable to cache oauth token: " ++ e, w1)
  | none =>
    let fs1 := openFileCreateTrunc w1.fs file 0o600
    if w1.encodeFails then .ok { w1 with fs := fs1 }
    else .ok { w1 with fs := writeFile fs1 file (FileContent.json (encodeToken token)) }

/-- Embedding of `getClient(ctx, config)`: resolve the cache path, try
the cache, and on any read failure fall through to the interactive
flow and persist its result.  The returned token is the one the
generated `http.Client` wraps. -/
def getClient (config : Config) (w : World) : Except (String × World) (Token × World) :=
  match tokenCacheFile w with
  | .error e => .error ("Unable to get path to cached credential file. " ++ e, w)
  | .ok (cacheFile, w1) =>
    match tokenFromFile w1.fs cacheFile with
    | .ok tok => .ok (tok, w1)
    | .error _ =>
      match getTokenFromWeb config w1 with
      | .error f => .error f
      | .ok (tok, w2) =>
        match saveToken cacheFile tok w2 with
        | .error f => .error f
        | .ok w3 => .ok (tok, w3)

/-- The script id hard-coded in `main`. -/
def scriptId : String := "Mn_YoQoNj_iufS59FmWsY-JgYYRqhh78z"

/-- The execution request built in `main`. -/
def mainReq : ExecutionRequest := ⟨"getFoldersUnderRoot"⟩

/-- Embedding of `main` from `getClient` onward (reading and parsing
`client_secret.json` into `config` is the out-of-scope configuration
collaborator; `script.New(client)` cannot fail for a non-nil client).
A transport failure of `Scripts.Run(...).Do()` is fatal; a response
whose `Error` field is non-nil is printed (`fmt.Printf("%s", resp.Error)`)
and the program falls off the end of `main`, exiting normally; otherwise
the marshalled `resp.Response` is printed. -/
def mainRun (config : Config) (w : World) : Except (String × World) World :=
  match getClient config w with
  | .error f => .error f
  | .ok (tok, w1) =>
    match w1.rpc scriptId mainReq tok with
    | .error e => .error ("Unable to execute Apps Script function. " ++ e, w1)
    | .ok resp =>
      match resp.err with
      | some e => .ok { w1 with stdout := w1.stdout ++ [e] }
      | none => .ok { w1 with stdout := w1.stdout ++ [resp.response] }

/-- The world an outcome terminated in, whether fatal or normal. -/
def outWorld : Except (String × World) (Token × World) → World
  | .error (_, w) => w
  | .ok (_, w) => w

/-- The token of a normal outcome. -/
def resultToken : Except (String × World) (Token × World) → Option Token
  | .error _ => none
  | .ok (tok, _) => some tok

/-- Whether an outcome is a fatal termination (`log.Fatalf`). -/
def isFatal : Except (String × World) (Token × World) → Bool
  | .error _ => true
  | .ok _ => false

/-- Contents of the file at `path` in the world a `getClient` outcome
ended in, when the outcome is normal. -/
def resultFileAt (path : String) (r : Except (String × World) (Token × World)) :
    Option (Option FileData) :=
  match r with
  | .error _ => none
  | .ok (_, w) => some (w.fs.files path)

/-- Substring containment, used to state what the authorization URL
carries. -/
def StrContains (s sub : String) : Prop := ∃ a b, s = a ++ (sub ++ b)

/-- The world a `saveToken` outcome ended in, fatal or normal. -/
def saveWorld : Except (String × World) World → World
  | .error (_, w) => w
  | .ok w => w

/-! ## General lemmas about the file-system primitives -/

theorem mkdirAll_files (d : String) (m : Nat) (fs : FS) :
    (mkdirAll d m fs).files = fs.files := by
  unfold mkdirAll; split <;> rfl

theorem mkdirAll_dirs_other (d : String) (m : Nat) (fs : FS) (p : String) (hp : p ≠ d) :
    (mkdirAll d m fs).dirs p = fs.dirs p := by
  unfold mkdirAll; split
  · rfl
  · simp [hp]

theorem mkdirAll_dirs_self (d : String) (m : Nat) (fs : FS) (h : fs.dirs d = none) :
    (mkdirAll d m fs).dirs d = some m := by
  unfold mkdirAll
  rw [h]
  simp

theorem tokenFromFile_mkdirAll (d : String) (m : Nat) (fs : FS) (file : String) :
    tokenFromFile (mkdirAll d m fs) file = tokenFromFile fs file := by
  unfold tokenFromFile; rw [mkdirAll_files]

theorem openFileCreateTrunc_dirs (fs : FS) (file : String) (m : Nat) :
    (openFileCreateTrunc fs file m).dirs = fs.dirs := by
  unfold openFileCreateTrunc; split <;> rfl

theorem writeFile_dirs (fs : FS) (file : String) (c : FileContent) :
    (writeFile fs file c).dirs = fs.dirs := rfl

theorem write_after_open_files (fs : FS) (file : String) (m : Nat) (c : FileContent) :
    (writeFile (openFileCreateTrunc fs file m) file c).files file =
      some ⟨c, match fs.files file with | some fd => fd.perm | none => m⟩ := by
  unfold writeFile openFileCreateTrunc
  cases hf : fs.files file <;> simp [hf]

theorem tokenFromFile_after_trunc (fs : FS) (file : String) (m : Nat) :
    tokenFromFile (openFileCreateTrunc fs file m) file = .error () := by
  unfold tokenFromFile openFileCreateTrunc
  cases hf : fs.files file <;> simp [hf, decodeFile]

/-! ## The JSON round trip -/

theorem decode_encode (t : Token) : decodeJsonToken (encodeToken t) = .ok t := by
  unfold encodeToken decodeJsonToken
  by_cases h1 : t.tokenType = "" <;> by_cases h2 : t.refreshToken = "" <;>
    simp [h1, h2, applyFields, applyField, zeroToken] <;>
    (first | rfl | (cases t; simp_all))

theorem tokenFromFile_after_save (fs : FS) (file : String) (m : Nat) (tok : Token) :
    tokenFromFile
      (writeFile (openFileCreateTrunc fs file m) file (FileContent.json (encodeToken tok)))
      file = .ok tok := by
  unfold tokenFromFile
  rw [write_after_open_files]
  simp [decodeFile, decode_encode]

/-! ## Path lemmas for `getClient`

Each lemma computes the outcome of `getClient` on one control-flow
path of the Go code, under the hypotheses that select that path. -/

theorem getClient_hit (config : Config) (w : World) (fd : FileData) (tok : Token)
    (hu : w.userErr = none)
    (hf : w.fs.files (cachePath w.home) = some fd)
    (hd : decodeFile fd.content = .ok tok) :
    getClient config w =
      .ok (tok, { w with fs := mkdirAll (tokenCacheDir w.home) 0o700 w.fs }) := by
  unfold getClient tokenCacheFile tokenFromFile
  simp only [hu]
  simp only [mkdirAll_files, hf, hd]

theorem getClient_miss_scanFail (config : Config) (w : World)
    (hu : w.userErr = none)
    (hm : tokenFromFile w.fs (cachePath w.home) = .error ())
    (hs : w.stdin = []) :
    getClient config w =
      .error ("Unable to read authorization code EOF",
        { w with fs := mkdirAll (tokenCacheDir w.home) 0o700 w.fs,
                 stdout := w.stdout ++ [promptMsg (authCodeURL config "state-token")] }) := by
  unfold getClient tokenCacheFile getTokenFromWeb
  simp only [hu, tokenFromFile_mkdirAll, hm, hs]

theorem getClient_miss_exchangeFail (config : Config) (w : World)
    (code : String) (rest : List String) (e : String)
    (hu : w.userErr = none)
    (hm : tokenFromFile w.fs (cachePath w.home) = .error ())
    (hs : w.stdin = code :: rest)
    (hx : w.exchange code = .error e) :
    getClient config w =
      .error ("Unable to retrieve token from web " ++ e,
        { w with fs := mkdirAll (tokenCacheDir w.home) 0o700 w.fs,
                 stdin := rest,
                 stdout := w.stdout ++ [promptMsg (authCodeURL config "state-token")] }) := by
  unfold getClient tokenCacheFile getTokenFromWeb
  simp only [hu, tokenFromFile_mkdirAll, hm, hs, hx]

theorem getClient_miss_openFail (config : Config) (w : World)
    (code : String) (rest : List String) (tok : Token) (e : String)
    (hu : w.userErr = none)
    (hm : tokenFromFile w.fs (cachePath w.home) = .error ())
    (hs : w.stdin = code :: rest)
    (hx : w.exchange code = .ok tok)
    (ho : w.openFails = some e) :
    getClient config w =
      .error ("Unable to cache oauth token: " ++ e,
        { w with fs := mkdirAll (tokenCacheDir w.home) 0o700 w.fs,
                 stdin := rest,
                 stdout := w.stdout ++ [promptMsg (authCodeURL config "state-token")]
                   ++ ["Saving credential file to: " ++ cachePath w.home ++ "\n"] }) := by
  unfold getClient tokenCacheFile getTokenFromWeb saveToken
  simp only [hu, tokenFromFile_mkdirAll, hm, hs, hx, ho]

theorem getClient_miss_encodeFail (config : Config) (w : World)
    (code : String) (rest : List String) (tok : Token)
    (hu : w.userErr = none)
    (hm : tokenFromFile w.fs (cachePath w.home) = .error ())
    (hs : w.stdin = code :: rest)
    (hx : w.exchange code = .ok tok)
    (ho : w.openFails = none)
    (he : w.encodeFails = true) :
    getClient config w =
      .ok (tok,
        { w with fs := openFileCreateTrunc (mkdirAll (tokenCacheDir w.home) 0o700 w.fs)
                         (cachePath w.home) 0o600,
                 stdin := rest,
                 stdout := w.stdout ++ [promptMsg (authCodeURL config "state-token")]
                   ++ ["Saving credential file to: " ++ cachePath w.home ++ "\n"] }) := by
  unfold getClient tokenCacheFile getTokenFromWeb saveToken
  simp only [hu, tokenFromFile_mkdirAll, hm, hs, hx, ho, he]
  simp [List.append_assoc]

theorem getClient_miss_success (config : Config) (w : World)
    (code : String) (rest : List String) (tok : Token)
    (hu : w.userErr = none)
    (hm : tokenFromFile w.fs (cachePath w.home) = .error ())
    (hs : w.stdin = code :: rest)
    (hx : w.exchange code = .ok tok)
    (ho : w.openFails = none)
    (he : w.encodeFails = false) :
    getClient config w =
      .ok (tok,
        { w with fs := writeFile
                         (openFileCreateTrunc (mkdirAll (tokenCacheDir w.home) 0o700 w.fs)
                           (cachePath w.home) 0o600)
                         (cachePath w.home) (FileContent.json (encodeToken tok)),
                 stdin := rest,
                 stdout := w.stdout ++ [promptMsg (authCodeURL config "state-token")]
                   ++ ["Saving credential file to: " ++ cachePath w.home ++ "\n"] }) := by
  unfold getClient tokenCacheFile getTokenFromWeb saveToken
  simp only [hu, tokenFromFile_mkdirAll, hm, hs, hx, ho, he]
  simp [List.append_assoc]

/-! ## Concrete fixtures for witnesses and counterexamples -/

/-- A stored credential whose expiry is long in the past. -/
def tok0 : Token := ⟨"ya29.stored-access-token", "Bearer", "1/stored-refresh-token", 1136239445⟩

/-- A concrete authorization configuration. -/
def cfg0 : Config :=
  ⟨"client-id-123.apps.googleusercontent.com", "secret",
   "https://www.googleapis.com/auth/drive",
   "https://accounts.google.com/o/oauth2/auth",
   "https://accounts.google.com/o/oauth2/token",
   "urn:ietf:wg:oauth:2.0:oob"⟩

/-- An exchange oracle that always fails: a cache hit must never
consult it. -/
def exNever : String → Except String Token := fun _ => .error "no network"

/-- An RPC oracle that always fails, for runs that never reach the
remote call. -/
def rpcNever : String → ExecutionRequest → Token → Except String RunResponse :=
  fun _ _ _ => .error "no network"

/-- An alternative exchange oracle, to show a cache hit is insensitive
to the authorization server. -/
def exAlt : String → Except String Token := fun _ => .ok zeroToken

/-- File system holding a valid serialized credential at the cache path. -/
def fsHit : FS :=
  ⟨fun p => if p = cachePath "/home/u" then some ⟨FileContent.json (encodeToken tok0), 0o600⟩
    else none,
   fun p => if p = tokenCacheDir "/home/u" then some 0o700 else none⟩

/-- A world with a pre-populated valid cache file and no console input. -/
def wHit : World := ⟨"/home/u", none, fsHit, [], [], exNever, none, false, rpcNever⟩

/-- The world after a cache hit: only the `MkdirAll` call has run. -/
def wHitAfter : World := { wHit with fs := mkdirAll (tokenCacheDir wHit.home) 0o700 wHit.fs }

/-- `wHit` with a different exchange oracle and pending console input. -/
def wHitAlt : World := { wHit with exchange := exAlt, stdin := ["unused-code"] }

/-- The world after a cache hit starting from `wHitAlt`. -/
def wHitAltAfter : World :=
  { wHit with exchange := exAlt, stdin := ["unused-code"],
              fs := mkdirAll (tokenCacheDir wHit.home) 0o700 wHit.fs }

/-- C1: if the cache file exists and its contents deserialize into a
credential, `getClient` returns that stored credential immediately:
the returned world has unchanged stdin and stdout (no prompt, no
console read), the file system is touched only by the idempotent
`MkdirAll`, and the result is the same for every exchange oracle and
every pending console input (no authorization-server interaction); the
stored token — its expiry field included — is returned unexamined. -/
theorem cache_hit_returns_stored_credential (config : Config) (w : World)
    (fd : FileData) (tok : Token)
    (hu : w.userErr = none)
    (hf : w.fs.files (cachePath w.home) = some fd)
    (hd : decodeFile fd.content = .ok tok) :
    getClient config w =
      .ok (tok, { w with fs := mkdirAll (tokenCacheDir w.home) 0o700 w.fs }) ∧
    ∀ ex inp, getClient config { w with exchange := ex, stdin := inp } =
      .ok (tok, { w with exchange := ex, stdin := inp,
                         fs := mkdirAll (tokenCacheDir w.home) 0o700 w.fs }) := by
  refine ⟨getClient_hit config w fd tok hu hf hd, ?_⟩
  intro ex inp
  exact getClient_hit config { w with exchange := ex, stdin := inp } fd tok hu hf hd

/-- Witness for C1 at a concrete pre-populated cache. -/
theorem cache_hit_returns_stored_credential_witness :
    wHit.userErr = none ∧
    getClient cfg0 wHit = .ok (tok0, wHitAfter) ∧
    getClient cfg0 wHitAlt = .ok (tok0, wHitAltAfter) := by
  have T := cache_hit_returns_stored_credential cfg0 wHit
    ⟨FileContent.json (encodeToken tok0), 0o600⟩ tok0 rfl rfl rfl
  exact ⟨rfl, T.1, T.2 exAlt ["unused-code"]⟩

/-- File system for the C10 frame witness: a valid cache file, an
unrelated file, the home directory present but the cache directory
absent. -/
def fsHit10 : FS :=
  ⟨fun p => if p = cachePath "/home/u" then some ⟨FileContent.json (encodeToken tok0), 0o600⟩
    else if p = "/home/u/other.txt" then some ⟨FileContent.raw "keep me", 0o644⟩
    else none,
   fun p => if p = "/home/u" then some 0o755 else none⟩

/-- A world for the C10 frame witness. -/
def wHit10 : World := ⟨"/home/u", none, fsHit10, [], [], exNever, none, false, rpcNever⟩

/-- The world after a cache hit starting from `wHit10`. -/
def wHit10After : World := { wHit10 with fs := mkdirAll (tokenCacheDir wHit10.home) 0o700 wHit10.fs }

/-- C10: on the cache-hit path `getClient` writes nothing to the file
system: every file is exactly as before the call (`saveToken` runs
only on the miss branch), and every directory other than the cache
directory touched by `MkdirAll` is unchanged. -/
theorem cache_hit_frame (config : Config) (w : World) (fd : FileData) (tok : Token)
    (hu : w.userErr = none)
    (hf : w.fs.files (cachePath w.home) = some fd)
    (hd : decodeFile fd.content = .ok tok) :
    getClient config w =
      .ok (tok, { w with fs := mkdirAll (tokenCacheDir w.home) 0o700 w.fs }) ∧
    (mkdirAll (tokenCacheDir w.home) 0o700 w.fs).files = w.fs.files ∧
    ∀ p, p ≠ tokenCacheDir w.home →
      (mkdirAll (tokenCacheDir w.home) 0o700 w.fs).dirs p = w.fs.dirs p := by
  refine ⟨getClient_hit config w fd tok hu hf hd, mkdirAll_files _ _ _, ?_⟩
  intro p hp
  exact mkdirAll_dirs_other _ _ _ p hp

/-- Witness for C10 on a concrete world with an unrelated file. -/
theorem cache_hit_frame_witness :
    wHit10.userErr = none ∧
    getClient cfg0 wHit10 = .ok (tok0, wHit10After) ∧
    (mkdirAll (tokenCacheDir wHit10.home) 0o700 wHit10.fs).files = wHit10.fs.files ∧
    (mkdirAll (tokenCacheDir wHit10.home) 0o700 wHit10.fs).dirs "/home/u" =
      wHit10.fs.dirs "/home/u" := by
  have T := cache_hit_frame cfg0 wHit10
    ⟨FileContent.json (encodeToken tok0), 0o600⟩ tok0 rfl rfl rfl
  exact ⟨rfl, T.1, T.2.1, T.2.2 "/home/u" (by decide)⟩

/-- File system whose cache file holds the JSON document `{}`: valid
JSON, but not a credential. -/
def fs9 : FS :=
  ⟨fun p => if p = cachePath "/home/u" then some ⟨FileContent.json (Json.obj []), 0o600⟩
    else none,
   fun _ => none⟩

/-- A world whose cache file holds `{}`. -/
def w9 : World := ⟨"/home/u", none, fs9, [], [], exNever, none, false, rpcNever⟩

/-- The world after `getClient` on `w9`. -/
def w9After : World := { w9 with fs := mkdirAll (tokenCacheDir w9.home) 0o700 w9.fs }

/-- C9: `tokenFromFile` validates nothing beyond JSON well-formedness:
a cache file holding `{}` decodes successfully to the zero-valued
credential, so `getClient` treats it as a cache hit and returns the
zero token instead of falling back to the interactive flow; JSON
`null` likewise decodes to the zero token. -/
theorem json_noncredential_cache_hit :
    tokenFromFile w9.fs (cachePath w9.home) = .ok zeroToken ∧
    getClient cfg0 w9 = .ok (zeroToken, w9After) ∧
    decodeJsonToken (Json.obj []) = .ok zeroToken ∧
    decodeJsonToken Json.null = .ok zeroToken ∧
    zeroToken.accessToken = "" :=
  ⟨rfl, rfl, rfl, rfl, rfl⟩

/-- File system with no cache file at all. -/
def fsEmpty : FS := ⟨fun _ => none, fun _ => none⟩

/-- An exchange oracle that rejects every code, as the token endpoint
does for an invalid or expired authorization code. -/
def exInvalidGrant : String → Except String Token :=
  fun _ => .error "oauth2: cannot fetch token: 400 Bad Request"

/-- A world with no cache file and an invalid authorization code typed
at the console. -/
def wExch : World :=
  ⟨"/home/u", none, fsEmpty, ["bad-code"], [], exInvalidGrant, none, false, rpcNever⟩

/-- The world in which the run from `wExch` dies. -/
def wExchDead : World :=
  { wExch with fs := mkdirAll (tokenCacheDir wExch.home) 0o700 wExch.fs,
               stdin := [],
               stdout := wExch.stdout ++ [promptMsg (authCodeURL cfg0 "state-token")] }

/-- C4: when the token exchange fails, `getClient` terminates at once
with the message `Unable to retrieve token from web …`: exactly one
prompt was printed and exactly one line of input consumed (no retry,
no re-prompt), and the file system's files — the cache path included —
are exactly as before the call (`MkdirAll` touches only the cache
directory entry). -/
theorem exchange_failure_fatal_no_write (config : Config) (w : World)
    (code : String) (rest : List String) (e : String)
    (hu : w.userErr = none)
    (hm : tokenFromFile w.fs (cachePath w.home) = .error ())
    (hs : w.stdin = code :: rest)
    (hx : w.exchange code = .error e) :
    getClient config w =
      .error ("Unable to retrieve token from web " ++ e,
        { w with fs := mkdirAll (tokenCacheDir w.home) 0o700 w.fs,
                 stdin := rest,
                 stdout := w.stdout ++ [promptMsg (authCodeURL config "state-token")] }) ∧
    (mkdirAll (tokenCacheDir w.home) 0o700 w.fs).files = w.fs.files := by
  exact ⟨getClient_miss_exchangeFail config w code rest e hu hm hs hx,
    mkdirAll_files _ _ _⟩

/-- Witness for C4: an absent cache file and a rejected code. -/
theorem exchange_failure_fatal_no_write_witness :
    wExch.userErr = none ∧
    wExch.stdin = ["bad-code"] ∧
    getClient cfg0 wExch =
      .error ("Unable to retrieve token from web "
        ++ "oauth2: cannot fetch token: 400 Bad Request", wExchDead) ∧
    wExchDead.fs.files (cachePath wExch.home) = none := by
  have T := exchange_failure_fatal_no_write cfg0 wExch "bad-code" [] 
    "oauth2: cannot fetch token: 400 Bad Request" rfl rfl rfl rfl
  exact ⟨rfl, rfl, T.1, rfl⟩

/-- A world for the C6 round-trip witness: empty disk, no failures. -/
def wSave : World := ⟨"/home/u", none, fsEmpty, [], [], exNever, none, false, rpcNever⟩

/-- C6: persist-then-load round trip: writing any credential with
`saveToken` and reading it back with `tokenFromFile` yields the same
credential — all four fields included — whenever the open and the
encode succeed. -/
theorem save_load_roundtrip (w : World) (file : String) (tok : Token)
    (ho : w.openFails = none)
    (he : w.encodeFails = false) :
    tokenFromFile (saveWorld (saveToken file tok w)).fs file = .ok tok := by
  unfold saveToken
  simp only [ho, he]
  simp only [saveWorld, Bool.false_eq_true, if_false]
  exact tokenFromFile_after_save _ _ _ _

/-- Witness for C6 at the cache path with a concrete credential. -/
theorem save_load_roundtrip_witness :
    wSave.openFails = none ∧
    wSave.encodeFails = false ∧
    tokenFromFile (saveWorld (saveToken (cachePath wSave.home) tok0 wSave)).fs
      (cachePath wSave.home) = .ok tok0 :=
  ⟨rfl, rfl, save_load_roundtrip wSave (cachePath wSave.home) tok0 rfl rfl⟩

theorem getClient_hit_of_read (config : Config) (w : World) (tok : Token)
    (hu : w.userErr = none)
    (hm : tokenFromFile w.fs (cachePath w.home) = .ok tok) :
    getClient config w =
      .ok (tok, { w with fs := mkdirAll (tokenCacheDir w.home) 0o700 w.fs }) := by
  unfold getClient tokenCacheFile
  simp only [hu, tokenFromFile_mkdirAll, hm]

/-- The newly exchanged credential on the C2 runs. -/
def tokC2 : Token := ⟨"ya29.new-access", "Bearer", "1/new-refresh", 1767222000⟩

/-- An exchange oracle accepting any code with `tokC2`. -/
def exOkC2 : String → Except String Token := fun _ => .ok tokC2

/-- A world with no cache file whose JSON encode to the opened cache
file fails (disk error after a successful open). -/
def wC2 : World := ⟨"/home/u", none, fsEmpty, ["pasted-code"], [], exOkC2, none, true, rpcNever⟩

/-- Counterexample to C2 as stated: from `wC2`, `getClient` returns
normally with the new credential, but the cache file afterwards is the
truncated empty file — `json.NewEncoder(f).Encode(token)`'s error is
discarded by the Go code, so the file does not contain the returned
credential. -/
theorem acquire_persist_claim_cex :
    resultToken (getClient cfg0 wC2) = some tokC2 ∧
    resultFileAt (cachePath "/home/u") (getClient cfg0 wC2) =
      some (some ⟨FileContent.raw "", 0o600⟩) ∧
    decodeFile (FileContent.raw "") ≠ .ok tokC2 := by
  refine ⟨rfl, rfl, ?_⟩
  simp [decodeFile]

/-- C2 as amended: if the JSON encode to the opened cache file
succeeds, then after every normal return of `getClient` the cache file
at the resolved path reads back as exactly the returned credential, on
the hit path and on the miss path alike. -/
theorem acquire_persists_credential (config : Config) (w : World) (tok : Token) (w2 : World)
    (henc : w.encodeFails = false)
    (h : getClient config w = .ok (tok, w2)) :
    tokenFromFile w2.fs (cachePath w.home) = .ok tok := by
  cases hu : w.userErr with
  | some e =>
    unfold getClient tokenCacheFile at h
    rw [hu] at h
    simp at h
  | none =>
    cases hm : tokenFromFile w.fs (cachePath w.home) with
    | ok t0 =>
      rw [getClient_hit_of_read config w t0 hu hm] at h
      simp only [Except.ok.injEq, Prod.mk.injEq] at h
      obtain ⟨h1, h2⟩ := h
      subst h1
      subst h2
      rw [show ({ w with fs := mkdirAll (tokenCacheDir w.home) 0o700 w.fs } : World).fs
          = mkdirAll (tokenCacheDir w.home) 0o700 w.fs from rfl]
      rw [tokenFromFile_mkdirAll]
      exact hm
    | error u =>
      cases hs : w.stdin with
      | nil =>
        rw [getClient_miss_scanFail config w hu hm hs] at h
        simp at h
      | cons code rest =>
        cases hx : w.exchange code with
        | error e =>
          rw [getClient_miss_exchangeFail config w code rest e hu hm hs hx] at h
          simp at h
        | ok t =>
          cases ho : w.openFails with
          | some e =>
            rw [getClient_miss_openFail config w code rest t e hu hm hs hx ho] at h
            simp at h
          | none =>
            rw [getClient_miss_success config w code rest t hu hm hs hx ho henc] at h
            simp only [Except.ok.injEq, Prod.mk.injEq] at h
            obtain ⟨h1, h2⟩ := h
            subst h1
            subst h2
            exact tokenFromFile_after_save _ _ _ _

/-- `wC2` with a working encoder: the success run for the C2 witness. -/
def wC2ok : World := ⟨"/home/u", none, fsEmpty, ["pasted-code"], [], exOkC2, none, false, rpcNever⟩

/-- The world after the successful acquisition from `wC2ok`. -/
def wC2okAfter : World :=
  { wC2ok with
    fs := writeFile
            (openFileCreateTrunc (mkdirAll (tokenCacheDir wC2ok.home) 0o700 wC2ok.fs)
              (cachePath wC2ok.home) 0o600)
            (cachePath wC2ok.home) (FileContent.json (encodeToken tokC2)),
    stdin := [],
    stdout := wC2ok.stdout ++ [promptMsg (authCodeURL cfg0 "state-token")]
      ++ ["Saving credential file to: " ++ cachePath wC2ok.home ++ "\n"] }

/-- Witness for the amended C2 on a concrete cache-miss run. -/
theorem acquire_persists_credential_witness :
    wC2ok.encodeFails = false ∧
    getClient cfg0 wC2ok = .ok (tokC2, wC2okAfter) ∧
    tokenFromFile wC2okAfter.fs (cachePath wC2ok.home) = .ok tokC2 :=
  ⟨rfl, rfl, acquire_persists_credential cfg0 wC2ok tokC2 wC2okAfter rfl rfl⟩

/-- The newly exchanged credential on the C3 runs. -/
def tokC3 : Token := ⟨"ya29.c3-access", "Bearer", "1/c3-refresh", 1767222001⟩

/-- A world with no cache file whose encode to the opened cache file
fails; the open itself succeeds. -/
def wC3 : World :=
  ⟨"/home/u", none, fsEmpty, ["c3-code"], [], fun _ => .ok tokC3, none, true, rpcNever⟩

/-- Counterexample to C3 as stated: from `wC3` the persisting step
fails (the encode to the opened file errors), yet the program does not
terminate — `getClient` returns normally and the credential is left
unsaved (the cache file is the truncated empty file). -/
theorem cache_write_error_fatal_cex :
    wC3.encodeFails = true ∧
    isFatal (getClient cfg0 wC3) = false ∧
    resultFileAt (cachePath "/home/u") (getClient cfg0 wC3) =
      some (some ⟨FileContent.raw "", 0o600⟩) ∧
    decodeFile (FileContent.raw "") = .error () :=
  ⟨rfl, rfl, rfl, rfl⟩

/-- C3 as amended: only a failure of `os.OpenFile` on the cache file is
fatal, with the message `Unable to cache oauth token: …`; an error of
the JSON encode after a successful open is discarded, and the program
continues with the cache file left truncated (the credential unsaved). -/
theorem save_failure_behavior (config : Config) (w : World)
    (code : String) (rest : List String) (tok : Token)
    (hu : w.userErr = none)
    (hm : tokenFromFile w.fs (cachePath w.home) = .error ())
    (hs : w.stdin = code :: rest)
    (hx : w.exchange code = .ok tok) :
    (∀ e, w.openFails = some e →
      getClient config w =
        .error ("Unable to cache oauth token: " ++ e,
          { w with fs := mkdirAll (tokenCacheDir w.home) 0o700 w.fs,
                   stdin := rest,
                   stdout := w.stdout ++ [promptMsg (authCodeURL config "state-token")]
                     ++ ["Saving credential file to: " ++ cachePath w.home ++ "\n"] })) ∧
    (w.openFails = none → w.encodeFails = true →
      getClient config w =
        .ok (tok,
          { w with fs := openFileCreateTrunc (mkdirAll (tokenCacheDir w.home) 0o700 w.fs)
                           (cachePath w.home) 0o600,
                   stdin := rest,
                   stdout := w.stdout ++ [promptMsg (authCodeURL config "state-token")]
                     ++ ["Saving credential file to: " ++ cachePath w.home ++ "\n"] }) ∧
      tokenFromFile (openFileCreateTrunc (mkdirAll (tokenCacheDir w.home) 0o700 w.fs)
        (cachePath w.home) 0o600) (cachePath w.home) = .error ()) := by
  constructor
  · intro e ho
    exact getClient_miss_openFail config w code rest tok e hu hm hs hx ho
  · intro ho he
    exact ⟨getClient_miss_encodeFail config w code rest tok hu hm hs hx ho he,
      tokenFromFile_after_trunc _ _ _⟩

/-- The open-failure message for the C3 witness. -/
def openErrMsg : String :=
  "open /home/u/.credentials/script-go-quickstart.json: permission denied"

/-- A world whose `os.OpenFile` on the cache file fails. -/
def wOpenF : World :=
  ⟨"/home/u", none, fsEmpty, ["code-a"], [], fun _ => .ok tokC3, some openErrMsg, false, rpcNever⟩

/-- The world in which the run from `wOpenF` dies. -/
def wOpenFDead : World :=
  { wOpenF with fs := mkdirAll (tokenCacheDir wOpenF.home) 0o700 wOpenF.fs,
                stdin := [],
                stdout := wOpenF.stdout ++ [promptMsg (authCodeURL cfg0 "state-token")]
                  ++ ["Saving credential file to: " ++ cachePath wOpenF.home ++ "\n"] }

/-- A world whose open succeeds but whose encode fails. -/
def wEnc : World :=
  ⟨"/home/u", none, fsEmpty, ["code-b"], [], fun _ => .ok tokC3, none, true, rpcNever⟩

/-- The world after the discarded encode failure from `wEnc`. -/
def wEncAfter : World :=
  { wEnc with fs := openFileCreateTrunc (mkdirAll (tokenCacheDir wEnc.home) 0o700 wEnc.fs)
                      (cachePath wEnc.home) 0o600,
              stdin := [],
              stdout := wEnc.stdout ++ [promptMsg (authCodeURL cfg0 "state-token")]
                ++ ["Saving credential file to: " ++ cachePath wEnc.home ++ "\n"] }

/-- Witness for the amended C3 on both failure modes. -/
theorem save_failure_behavior_witness :
    getClient cfg0 wOpenF = .error ("Unable to cache oauth token: " ++ openErrMsg, wOpenFDead) ∧
    getClient cfg0 wEnc = .ok (tokC3, wEncAfter) ∧
    tokenFromFile (openFileCreateTrunc (mkdirAll (tokenCacheDir wEnc.home) 0o700 wEnc.fs)
      (cachePath wEnc.home) 0o600) (cachePath wEnc.home) = .error () := by
  have T1 := (save_failure_behavior cfg0 wOpenF "code-a" [] tokC3 rfl rfl rfl rfl).1 openErrMsg rfl
  have T2 := (save_failure_behavior cfg0 wEnc "code-b" [] tokC3 rfl rfl rfl rfl).2 rfl rfl
  exact ⟨T1, T2.1, T2.2⟩

/-- The newly exchanged credential on the C5 runs. -/
def tokC5 : Token := ⟨"ya29.c5-access", "Bearer", "1/c5-refresh", 1767222002⟩

/-- File system with a stale, undecodable cache file whose mode is
`0644`, under an existing cache directory. -/
def fsC5 : FS :=
  ⟨fun p => if p = cachePath "/home/u" then some ⟨FileContent.raw "old-stale-entry", 0o644⟩
    else none,
   fun p => if p = tokenCacheDir "/home/u" then some 0o700 else none⟩

/-- A world holding the stale `0644` cache file, with a working
interactive flow. -/
def wC5 : World :=
  ⟨"/home/u", none, fsC5, ["c5-code"], [], fun _ => .ok tokC5, none, false, rpcNever⟩

/-- Counterexample to C5 as stated: a successful new acquisition over
the existing `0644` cache file fully replaces the contents, but the
file is not created with mode `0600` — `os.OpenFile` with `O_CREATE`
leaves an existing file's mode untouched, so it stays `0644`. -/
theorem overwrite_mode_cex :
    resultFileAt (cachePath "/home/u") (getClient cfg0 wC5) =
      some (some ⟨FileContent.json (encodeToken tokC5), 0o644⟩) ∧
    (0o644 : Nat) ≠ 0o600 :=
  ⟨rfl, by decide⟩

/-- C5 as amended: a successful new acquisition truncates the cache
file and replaces its contents wholesale with the serialized new
credential (no field of the old entry survives); the file gets mode
`0600` only when it is newly created, an existing file keeping its
prior mode; and the cache directory is created with mode `0700` when
absent. -/
theorem overwrite_replaces_contents (config : Config) (w : World)
    (code : String) (rest : List String) (tok : Token)
    (hu : w.userErr = none)
    (hm : tokenFromFile w.fs (cachePath w.home) = .error ())
    (hs : w.stdin = code :: rest)
    (hx : w.exchange code = .ok tok)
    (ho : w.openFails = none)
    (he : w.encodeFails = false) :
    (∀ fdOld, w.fs.files (cachePath w.home) = some fdOld →
      resultFileAt (cachePath w.home) (getClient config w) =
        some (some ⟨FileContent.json (encodeToken tok), fdOld.perm⟩)) ∧
    (w.fs.files (cachePath w.home) = none →
      resultFileAt (cachePath w.home) (getClient config w) =
        some (some ⟨FileContent.json (encodeToken tok), 0o600⟩)) ∧
    (w.fs.dirs (tokenCacheDir w.home) = none →
      (outWorld (getClient config w)).fs.dirs (tokenCacheDir w.home) = some 0o700) := by
  have heq := getClient_miss_success config w code rest tok hu hm hs hx ho he
  refine ⟨?_, ?_, ?_⟩
  · intro fdOld hold
    rw [heq]
    simp only [resultFileAt]
    rw [write_after_open_files]
    rw [mkdirAll_files, hold]
  · intro hnone
    rw [heq]
    simp only [resultFileAt]
    rw [write_after_open_files]
    rw [mkdirAll_files, hnone]
  · intro hdir
    rw [heq]
    simp only [outWorld]
    rw [show (writeFile (openFileCreateTrunc (mkdirAll (tokenCacheDir w.home) 0o700 w.fs)
        (cachePath w.home) 0o600) (cachePath w.home)
        (FileContent.json (encodeToken tok))).dirs
      = (openFileCreateTrunc (mkdirAll (tokenCacheDir w.home) 0o700 w.fs)
        (cachePath w.home) 0o600).dirs from writeFile_dirs _ _ _]
    rw [openFileCreateTrunc_dirs]
    exact mkdirAll_dirs_self _ _ _ hdir

/-- File system with a stale cache file of mode `0640`, cache
directory present, for the C5 witness. -/
def fsC5b : FS :=
  ⟨fun p => if p = cachePath "/home/u" then some ⟨FileContent.raw "stale", 0o640⟩ else none,
   fun p => if p = tokenCacheDir "/home/u" then some 0o700 else none⟩

/-- A world over the stale `0640` cache file. -/
def wC5b : World :=
  ⟨"/home/u", none, fsC5b, ["c5-code"], [], fun _ => .ok tokC5, none, false, rpcNever⟩

/-- A world with neither cache file nor cache directory. -/
def wC5c : World :=
  ⟨"/home/u", none, fsEmpty, ["c5-code"], [], fun _ => .ok tokC5, none, false, rpcNever⟩

/-- Witness for the amended C5: replacement over an existing `0640`
file keeps mode `0640`; creation over an empty disk gives mode `0600`
and a `0700` cache directory. -/
theorem overwrite_replaces_contents_witness :
    resultFileAt (cachePath wC5b.home) (getClient cfg0 wC5b) =
      some (some ⟨FileContent.json (encodeToken tokC5), 0o640⟩) ∧
    resultFileAt (cachePath wC5c.home) (getClient cfg0 wC5c) =
      some (some ⟨FileContent.json (encodeToken tokC5), 0o600⟩) ∧
    (outWorld (getClient cfg0 wC5c)).fs.dirs (tokenCacheDir wC5c.home) = some 0o700 := by
  have T1 := (overwrite_replaces_contents cfg0 wC5b "c5-code" [] tokC5
    rfl rfl rfl rfl rfl rfl).1 ⟨FileContent.raw "stale", 0o640⟩ rfl
  have T2 := overwrite_replaces_contents cfg0 wC5c "c5-code" [] tokC5 rfl rfl rfl rfl rfl rfl
  exact ⟨T1, T2.2.1 rfl, T2.2.2 rfl⟩

theorem escapeL_unreserved (l : List Char) (h : ∀ c ∈ l, unreservedChar c = true) :
    escapeL l = l := by
  induction l with
  | nil => rfl
  | cons c cs ih =>
    unfold escapeL escapeCharL
    rw [h c (List.mem_cons_self c cs)]
    simp [ih (fun x hx => h x (List.mem_cons_of_mem _ hx))]

theorem queryEscape_unreserved (s : String) (h : ∀ c ∈ s.data, unreservedChar c = true) :
    queryEscape s = s := by
  unfold queryEscape
  rw [escapeL_unreserved s.data h]

/-- C7: when the cache read fails, `getClient` does not terminate on
that failure: it falls through to the interactive flow.  The
authorization URL it prints contains the configured client id and
scope (literally so whenever they consist of characters
`url.QueryEscape` leaves unescaped), the fixed anti-forgery token
`state=state-token` and `access_type=offline`; the prompt line is
printed, and exactly one line of console input is consumed before
anything else happens — with no input available the program dies at
the read, never reaching the exchange. -/
theorem cache_miss_interactive_flow (config : Config) (w : World)
    (hu : w.userErr = none)
    (hm : tokenFromFile w.fs (cachePath w.home) = .error ())
    (hid : ∀ c ∈ config.clientID.data, unreservedChar c = true)
    (hsc : ∀ c ∈ config.scope.data, unreservedChar c = true) :
    StrContains (authCodeURL config "state-token") config.clientID ∧
    StrContains (authCodeURL config "state-token") config.scope ∧
    StrContains (authCodeURL config "state-token") "access_type=offline" ∧
    StrContains (authCodeURL config "state-token") "state=state-token" ∧
    (w.stdin = [] →
      getClient config w =
        .error ("Unable to read authorization code EOF",
          { w with fs := mkdirAll (tokenCacheDir w.home) 0o700 w.fs,
                   stdout := w.stdout ++ [promptMsg (authCodeURL config "state-token")] })) ∧
    (∀ code rest, w.stdin = code :: rest →
      promptMsg (authCodeURL config "state-token") ∈ (outWorld (getClient config w)).stdout ∧
      (outWorld (getClient config w)).stdin = rest) := by
  have hqe1 : queryEscape config.clientID = config.clientID := queryEscape_unreserved _ hid
  have hqe2 : queryEscape config.scope = config.scope := queryEscape_unreserved _ hsc
  refine ⟨?_, ?_, ?_, ?_, ?_, ?_⟩
  · refine ⟨config.authURL ++ "?access_type=offline&client_id=",
      "&redirect_uri=" ++ queryEscape config.redirectURL ++ "&response_type=code&scope="
        ++ queryEscape config.scope ++ "&state=" ++ queryEscape "state-token", ?_⟩
    simp only [authCodeURL, hqe1, String.append_assoc]
  · refine ⟨config.authURL ++ "?access_type=offline&client_id=" ++ queryEscape config.clientID
        ++ "&redirect_uri=" ++ queryEscape config.redirectURL ++ "&response_type=code&scope=",
      "&state=" ++ queryEscape "state-token", ?_⟩
    simp only [authCodeURL, hqe2, String.append_assoc]
  · refine ⟨config.authURL ++ "?",
      "&client_id=" ++ queryEscape config.clientID ++ "&redirect_uri="
        ++ queryEscape config.redirectURL ++ "&response_type=code&scope="
        ++ queryEscape config.scope ++ "&state=" ++ queryEscape "state-token", ?_⟩
    simp only [authCodeURL]
    rw [show ("?access_type=offline&client_id=" : String)
      = "?" ++ "access_type=offline" ++ "&client_id=" from rfl]
    simp only [String.append_assoc]
  · refine ⟨config.authURL ++ "?access_type=offline&client_id=" ++ queryEscape config.clientID
        ++ "&redirect_uri=" ++ queryEscape config.redirectURL ++ "&response_type=code&scope="
        ++ queryEscape config.scope ++ "&", "", ?_⟩
    simp only [authCodeURL]
    rw [show ("&state=" : String) = "&" ++ "state=" from rfl]
    rw [show (queryEscape "state-token") = "state-token" from rfl]
    rw [show ("state=state-token" : String) = "state=" ++ "state-token" from rfl]
    simp only [String.append_assoc, String.append_empty]
  · intro h0
    exact getClient_miss_scanFail config w hu hm h0
  · intro code rest hcons
    cases hx : w.exchange code with
    | error e =>
      rw [getClient_miss_exchangeFail config w code rest e hu hm hcons hx]
      simp only [outWorld]
      exact ⟨by simp, by trivial⟩
    | ok t =>
      cases ho : w.openFails with
      | some e =>
        rw [getClient_miss_openFail config w code rest t e hu hm hcons hx ho]
        simp only [outWorld]
        exact ⟨by simp, by trivial⟩
      | none =>
        cases he : w.encodeFails with
        | true =>
          rw [getClient_miss_encodeFail config w code rest t hu hm hcons hx ho he]
          simp only [outWorld]
          exact ⟨by simp, by trivial⟩
        | false =>
          rw [getClient_miss_success config w code rest t hu hm hcons hx ho he]
          simp only [outWorld]
          exact ⟨by simp, by trivial⟩

/-- A configuration whose client id and scope consist of unescaped
characters, for the C7 witness. -/
def cfg7 : Config :=
  ⟨"client-id-123.apps.googleusercontent.com", "secret", "email",
   "https://accounts.google.com/o/oauth2/auth",
   "https://accounts.google.com/o/oauth2/token",
   "urn:ietf:wg:oauth:2.0:oob"⟩

/-- A world with no cache file and no console input. -/
def wMiss7e : World := ⟨"/home/u", none, fsEmpty, [], [], exNever, none, false, rpcNever⟩

/-- The world in which the run from `wMiss7e` dies at the console read. -/
def wMiss7eDead : World :=
  { wMiss7e with fs := mkdirAll (tokenCacheDir wMiss7e.home) 0o700 wMiss7e.fs,
                 stdout := wMiss7e.stdout ++ [promptMsg (authCodeURL cfg7 "state-token")] }

/-- A world with no cache file and one line of console input. -/
def wMiss7c : World := ⟨"/home/u", none, fsEmpty, ["typed-code"], [], exNever, none, false, rpcNever⟩

/-- Witness for C7: with empty input the run prints the prompt and
dies at the read; with one input line it prints the prompt and
consumes exactly that line. -/
theorem cache_miss_interactive_flow_witness :
    getClient cfg7 wMiss7e = .error ("Unable to read authorization code EOF", wMiss7eDead) ∧
    promptMsg (authCodeURL cfg7 "state-token") ∈ (outWorld (getClient cfg7 wMiss7c)).stdout ∧
    (outWorld (getClient cfg7 wMiss7c)).stdin = [] := by
  have T1 := (cache_miss_interactive_flow cfg7 wMiss7e rfl rfl
    (by decide) (by decide)).2.2.2.2.1 rfl
  have T2 := (cache_miss_interactive_flow cfg7 wMiss7c rfl rfl
    (by decide) (by decide)).2.2.2.2.2 "typed-code" [] rfl
  exact ⟨T1, T2.1, T2.2⟩

/-- C8: once `getClient` has produced a client, a remote call whose
transport succeeds but whose response carries a non-nil `Error` field
ends with that error printed (`fmt.Printf("%s", resp.Error)`) and the
program falling off the end of `main` — a normal exit with code 0
(`Except.ok`); only a transport-level failure of the call is fatal
(`log.Fatalf`, `Except.error`). -/
theorem remote_app_error_nonfatal (config : Config) (w : World) (tok : Token) (w1 : World)
    (hg : getClient config w = .ok (tok, w1)) :
    (∀ resp e, w1.rpc scriptId mainReq tok = .ok resp → resp.err = some e →
      mainRun config w = .ok { w1 with stdout := w1.stdout ++ [e] }) ∧
    (∀ msg, w1.rpc scriptId mainReq tok = .error msg →
      mainRun config w = .error ("Unable to execute Apps Script function. " ++ msg, w1)) := by
  constructor
  · intro resp e hr he
    unfold mainRun
    simp only [hg, hr, he]
  · intro msg hr
    unfold mainRun
    simp only [hg, hr]

/-- The function-level error reported by the script on the C8 witness run. -/
def scriptErrMsg : String := "ScriptError: getFoldersUnderRoot failed"

/-- The transport error on the C8 witness run. -/
def transportErrMsg : String := "Post https://script.googleapis.com/v1/scripts/run: connection refused"

/-- The response whose transport succeeded but whose script errored. -/
def respErr : RunResponse := ⟨some scriptErrMsg, "null"⟩

/-- A cache-hit world whose remote call reports a function-level error. -/
def w8a : World :=
  ⟨"/home/u", none, fsHit, [], [], exNever, none, false, fun _ _ _ => .ok respErr⟩

/-- The world after `getClient` inside the run from `w8a`. -/
def w8aMid : World := { w8a with fs := mkdirAll (tokenCacheDir w8a.home) 0o700 w8a.fs }

/-- The final world of the run from `w8a`: the script error printed. -/
def w8aFinal : World := { w8aMid with stdout := w8aMid.stdout ++ [scriptErrMsg] }

/-- A cache-hit world whose remote call fails at transport level. -/
def w8b : World :=
  ⟨"/home/u", none, fsHit, [], [], exNever, none, false, fun _ _ _ => .error transportErrMsg⟩

/-- The world after `getClient` inside the run from `w8b`. -/
def w8bMid : World := { w8b with fs := mkdirAll (tokenCacheDir w8b.home) 0o700 w8b.fs }

/-- Witness for C8: the application error is printed and the run ends
normally; the transport error is fatal. -/
theorem remote_app_error_nonfatal_witness :
    mainRun cfg0 w8a = .ok w8aFinal ∧
    mainRun cfg0 w8b =
      .error ("Unable to execute Apps Script function. " ++ transportErrMsg, w8bMid) := by
  have T1 := (remote_app_error_nonfatal cfg0 w8a tok0 w8aMid rfl).1 respErr scriptErrMsg rfl rfl
  have T2 := (remote_app_error_nonfatal cfg0 w8b tok0 w8bMid rfl).2 transportErrMsg rfl
  exact ⟨T1, T2⟩
